import Mathlib

/-!
# STM32 HID bootloader: boot decision, supervisor loop and handoff

A shallow embedding of `bootloader_F1/Src/main.c`.

* Memory-mapped registers and the globals written by `Reset_Handler` are fields of
  `Machine`; 32-bit stores and loads are taken modulo `2 ^ 32`, the `uint16_t` load of
  `BKP->DR10` modulo `2 ^ 16`.
* Calls into collaborators whose bodies live in other translation units (`pins_init`,
  `led_on`, `USB_Init`, ...) are recorded as `Action`s in a log, each together with a
  snapshot of the `Machine` at the time of the call.  They do not write any field of
  `Machine`.
* Values that only the hardware or the interrupt handler decides are inputs: the word read
  from `GPIOB->IDR`, the flash contents, and the values of `UploadStarted` /
  `UploadFinished` seen by each call of `check_flash_complete`.
* The embedding of `Reset_Handler` starts at line 193, after the clock tree has been
  brought up (lines 126-191 touch only `RCC->CR`, `RCC->CFGR` and `FLASH->ACR`).
* The `while (check_flash_complete() == false)` loop takes a fuel argument: the number of
  polls that are run.  When the fuel is spent the run is reported as still `polling`.
-/

namespace Bootloader

/-! ## Constants -/

/-- Modelled from the spec: `SRAM_BASE` is defined in the CMSIS device header, which is not
among the sources; the volatile memory starts at `0x20000000`. -/
def SRAM_BASE : Nat := 0x20000000

/-- Modelled from the spec: `FLASH_BASE` is defined in the CMSIS device header, which is not
among the sources; the application base `FLASH_BASE + 4096` is `0x08001000`. -/
def FLASH_BASE : Nat := 0x08000000

/-- Modelled from the spec: `GPIO_IDR_IDR2` is defined in the CMSIS device header, which is
not among the sources; it selects bit 2 (pin PB2) of the input data register. -/
def GPIO_IDR_IDR2 : Nat := 0x4

/-- Macro `#define BOOTLOADER_SIZE (4 * 1024)`. -/
def BOOTLOADER_SIZE : Nat := 4 * 1024

/-- Macro `#define SRAM_SIZE (20 * 1024)`. -/
def SRAM_SIZE : Nat := 20 * 1024

/-- Macro `#define SRAM_END (SRAM_BASE + SRAM_SIZE)`. -/
def SRAM_END : Nat := SRAM_BASE + SRAM_SIZE

/-- Macro `#define USER_PROGRAM (FLASH_BASE + BOOTLOADER_SIZE)`. -/
def USER_PROGRAM : Nat := FLASH_BASE + BOOTLOADER_SIZE

/-- Build-time parameters: what `config.h`, the device header and the linker decide. -/
structure Target where
  /-- whether `HAS_LED1_PIN` is defined -/
  HAS_LED1_PIN : Bool
  /-- whether `HAS_LED2_PIN` is defined -/
  HAS_LED2_PIN : Bool
  /-- bit mask `RCC_APB1ENR_BKPEN` -/
  RCC_APB1ENR_BKPEN : Nat
  /-- bit mask `RCC_APB1ENR_PWREN` -/
  RCC_APB1ENR_PWREN : Nat
  /-- bit mask `PWR_CR_DBP` -/
  PWR_CR_DBP : Nat
  /-- bit mask `RCC_APB2ENR_IOPAEN` -/
  RCC_APB2ENR_IOPAEN : Nat
  /-- the address `(uint32_t) RamVectors` -/
  RamVectors_addr : Nat
  /-- the address `(uint32_t) Reset_Handler` -/
  Reset_Handler_addr : Nat
  /-- the address `(uint32_t) USB_LP_CAN1_RX0_IRQHandler` -/
  USB_LP_CAN1_RX0_IRQHandler_addr : Nat
deriving DecidableEq, Repr

/-! ## State -/

/-- Registers and globals that `main.c` writes. -/
structure Machine where
  /-- register `RCC->APB1ENR` -/
  RCC_APB1ENR : Nat
  /-- register `RCC->APB2ENR` -/
  RCC_APB2ENR : Nat
  /-- register `PWR->CR` -/
  PWR_CR : Nat
  /-- register `BKP->DR10` -/
  BKP_DR10 : Nat
  /-- global `uint32_t RamVectors[37]` -/
  RamVectors : List Nat
  /-- register `SCB->VTOR` -/
  SCB_VTOR : Nat
  /-- main stack pointer -/
  MSP : Nat
  /-- global `volatile bool UploadStarted` -/
  UploadStarted : Bool
  /-- global `volatile bool UploadFinished` -/
  UploadFinished : Bool
deriving DecidableEq, Repr

/-- The two flags owned by the USB interrupt handler, as one poll sees them. -/
structure Flags where
  UploadStarted : Bool
  UploadFinished : Bool
deriving DecidableEq, Repr

/-- Store `RamVectors[index] = value;`. -/
def Machine.set_RamVectors (m : Machine) (index value : Nat) : Machine :=
  { m with RamVectors := m.RamVectors.set index value }

/-- Store `SCB->VTOR = value;`. -/
def Machine.set_VTOR (m : Machine) (value : Nat) : Machine :=
  { m with SCB_VTOR := value }

/-- Intrinsic `__set_MSP(value);`. -/
def Machine.set_MSP (m : Machine) (value : Nat) : Machine :=
  { m with MSP := value }

/-- Store `UploadStarted = value;`. -/
def Machine.set_UploadStarted (m : Machine) (value : Bool) : Machine :=
  { m with UploadStarted := value }

/-- Store `UploadFinished = value;`. -/
def Machine.set_UploadFinished (m : Machine) (value : Bool) : Machine :=
  { m with UploadFinished := value }

/-- Store `RCC->APB2ENR = value;`. -/
def Machine.set_APB2ENR (m : Machine) (value : Nat) : Machine :=
  { m with RCC_APB2ENR := value }

/-- The interrupt handler writing both flags. -/
def Machine.withFlags (m : Machine) (f : Flags) : Machine :=
  { m with UploadStarted := f.UploadStarted, UploadFinished := f.UploadFinished }

/-- Inputs decided outside `main.c`. -/
structure Env where
  /-- the word read from `GPIOB->IDR` at line 224 -/
  GPIOB_IDR : Nat
  /-- contents of the flash, by byte address of the word -/
  flash : Nat → Nat
  /-- flag values in place when `check_flash_complete` is called for the k-th time -/
  isr : Nat → Flags

/-- Observable steps of `Reset_Handler`. -/
inductive Action where
  | store_RamVectors (index value : Nat)
  | store_VTOR (value : Nat)
  | pins_init
  | delay (tmr : Nat)
  | led_on
  | led_off
  | led2_on
  | led2_off
  | USB_Shutdown
  | USB_Init
  | NVIC_SystemReset
  | LED1_CLOCK_DIS
  | set_MSP (value : Nat)
  | UserProgram (entry : Nat)
deriving DecidableEq, Repr

/-- How far a run got. -/
inductive Status where
  /-- still inside `while (check_flash_complete() == false)` -/
  | polling
  /-- the call `NVIC_SystemReset()` was made -/
  | reset
  /-- the call `UserProgram()` was made -/
  | jumped
deriving DecidableEq, Repr

/-- A machine together with the log of what has been done so far. -/
structure Run where
  m : Machine
  log : List (Action × Machine)
deriving DecidableEq, Repr

/-- Record an action, with the machine as it is at that moment. -/
def Run.emit (r : Run) (a : Action) : Run :=
  { r with log := r.log ++ [(a, r.m)] }

/-- Apply a register or memory write. -/
def Run.store (r : Run) (f : Machine → Machine) : Run :=
  { r with m := f r.m }

/-- The actions of a run, in order. -/
def Run.actions (r : Run) : List Action :=
  r.log.map Prod.fst

/-! ## Register helpers -/

/-- Macro `SET_BIT(REG, BIT)`, i.e. `REG |= BIT` on a 32-bit register. -/
def SET_BIT (reg bit : Nat) : Nat :=
  (reg ||| bit) % 2 ^ 32

/-- Macro `CLEAR_BIT(REG, BIT)`, i.e. `REG &= ~BIT` on a 32-bit register. -/
def CLEAR_BIT (reg bit : Nat) : Nat :=
  (reg &&& (0xFFFFFFFF ^^^ (bit % 2 ^ 32))) % 2 ^ 32

/-- Load `*(volatile uint32_t *) addr` from flash. -/
def read32 (flash : Nat → Nat) (addr : Nat) : Nat :=
  flash addr % 2 ^ 32

/-! ## Functions of `main.c` -/

/-- Function `static void delay(uint32_t tmr)` (lines 68-72): `tmr` no-ops, recorded as one
action. -/
def delay (tmr : Nat) (r : Run) : Run :=
  r.emit (.delay tmr)

/-- Function `static bool check_flash_complete(void)` (lines 74-89). -/
def check_flash_complete (t : Target) (r : Run) : Run × Bool :=
  if r.m.UploadFinished == true then
    (r, true)
  else
    let r :=
      if r.m.UploadStarted == false then
        let r :=
          if t.HAS_LED1_PIN then
            ((delay 200000 (r.emit .led_on)).emit .led_off)
          else r
        delay 200000 r
      else r
    (r, false)

/-- Function `static bool check_user_code(uint32_t usrAddr)` (lines 91-101). -/
def check_user_code (flash : Nat → Nat) (usrAddr : Nat) : Bool :=
  let sp := read32 flash usrAddr
  if (sp &&& 0x2FFE0000) == SRAM_BASE then true else false

/-- Function `static uint16_t get_and_clear_magic_word(void)` (lines 103-119). -/
def get_and_clear_magic_word (t : Target) (m : Machine) : Nat × Machine :=
  let en := t.RCC_APB1ENR_BKPEN ||| t.RCC_APB1ENR_PWREN
  let m := { m with RCC_APB1ENR := SET_BIT m.RCC_APB1ENR en }
  let value := m.BKP_DR10 % 2 ^ 16
  let m :=
    if value ≠ 0 then
      let m := { m with PWR_CR := SET_BIT m.PWR_CR t.PWR_CR_DBP }
      let m := { m with BKP_DR10 := 0x0000 }
      { m with PWR_CR := CLEAR_BIT m.PWR_CR t.PWR_CR_DBP }
    else m
  let m := { m with RCC_APB1ENR := CLEAR_BIT m.RCC_APB1ENR en }
  (value, m)

/-- The loop `while (check_flash_complete() == false) { delay(400L); }` (lines 241-243).
The first argument is the number of polls to run, the second the index of the next poll.
The boolean tells whether the loop was left. -/
def poll_loop (t : Target) (isr : Nat → Flags) : Nat → Nat → Run → Run × Bool
  | 0, _, r => (r, false)
  | fuel + 1, k, r =>
    let r := r.store fun m => m.withFlags (isr k)
    let c := check_flash_complete t r
    if c.2 == false then
      poll_loop t isr fuel (k + 1) (delay 400 c.1)
    else
      (c.1, true)

/-- Function `void Reset_Handler(void)` from line 193 on. -/
def Reset_Handler (t : Target) (e : Env) (fuel : Nat) (m0 : Machine) : Run × Status :=
  let r : Run := { m := m0, log := [] }
  -- Setup to vector table in SRAM
  let r := (r.store (·.set_RamVectors 0 SRAM_END)).emit (.store_RamVectors 0 SRAM_END)
  let r := (r.store (·.set_RamVectors 1 (t.Reset_Handler_addr % 2 ^ 32))).emit
    (.store_RamVectors 1 (t.Reset_Handler_addr % 2 ^ 32))
  let r := (r.store (·.set_RamVectors 36 (t.USB_LP_CAN1_RX0_IRQHandler_addr % 2 ^ 32))).emit
    (.store_RamVectors 36 (t.USB_LP_CAN1_RX0_IRQHandler_addr % 2 ^ 32))
  let r := (r.store (·.set_VTOR (t.RamVectors_addr % 2 ^ 32))).emit
    (.store_VTOR (t.RamVectors_addr % 2 ^ 32))
  -- Check for a magic word in BACKUP memory
  let magic_word := (get_and_clear_magic_word t r.m).1
  let r := r.store fun m => (get_and_clear_magic_word t m).2
  let r := r.emit .pins_init
  let r := delay 72 r
  let r := if t.HAS_LED2_PIN then r.emit .led2_off else r
  let r := r.store (·.set_UploadStarted false)
  let r := r.store (·.set_UploadFinished false)
  let UserProgram := read32 e.flash (USER_PROGRAM + 0x04)
  if magic_word == 0x424C ∨ (e.GPIOB_IDR % 2 ^ 32) &&& GPIO_IDR_IDR2 ≠ 0 ∨
      check_user_code e.flash USER_PROGRAM == false then
    let r :=
      if magic_word == 0x424C then
        let r := if t.HAS_LED2_PIN then r.emit .led2_on else r
        let r := r.emit .USB_Shutdown
        delay 4000000 r
      else r
    let r := r.emit .USB_Init
    let l := poll_loop t e.isr fuel 0 r
    if l.2 then
      let r := l.1.emit .USB_Shutdown
      let r := r.emit .NVIC_SystemReset
      (r, .reset)
    else
      (l.1, .polling)
  else
    let r := if t.HAS_LED2_PIN then r.emit .led2_on else r
    let r := r.store fun m => m.set_APB2ENR (CLEAR_BIT m.RCC_APB2ENR t.RCC_APB2ENR_IOPAEN)
    let r := r.emit .LED1_CLOCK_DIS
    let r := (r.store (·.set_VTOR USER_PROGRAM)).emit (.store_VTOR USER_PROGRAM)
    let r := (r.store (·.set_MSP (read32 e.flash USER_PROGRAM))).emit
      (.set_MSP (read32 e.flash USER_PROGRAM))
    let r := r.emit (.UserProgram UserProgram)
    (r, .jumped)

/-! ## Auxiliary definitions: closed forms of the log, sample inputs -/

/-- What one call of `check_flash_complete` adds to the log, by the flags it reads. -/
def heartbeat (t : Target) (m : Machine) : List (Action × Machine) :=
  if m.UploadFinished || m.UploadStarted then []
  else (if t.HAS_LED1_PIN then [(Action.led_on, m), (Action.delay 200000, m), (Action.led_off, m)]
    else []) ++ [(Action.delay 200000, m)]

/-- The log entries added by `fuel` polls starting at poll `k` on machine `m`. -/
def poll_log (t : Target) (isr : Nat → Flags) (m : Machine) : Nat → Nat → List (Action × Machine)
  | 0, _ => []
  | fuel + 1, k =>
    if (isr k).UploadFinished then []
    else heartbeat t (m.withFlags (isr k)) ++ (Action.delay 400, m.withFlags (isr k)) ::
      poll_log t isr m fuel (k + 1)

/-- Whether one of the polls `k, ..., k + fuel - 1` sees `UploadFinished`. -/
def poll_exits (isr : Nat → Flags) : Nat → Nat → Bool
  | 0, _ => false
  | fuel + 1, k => (isr k).UploadFinished || poll_exits isr fuel (k + 1)

/-- The machine right after `SCB->VTOR = (volatile uint32_t) RamVectors;` (line 197). -/
def vectors_installed (t : Target) (m0 : Machine) : Machine :=
  (((m0.set_RamVectors 0 SRAM_END).set_RamVectors 1 (t.Reset_Handler_addr % 2 ^ 32)).set_RamVectors
    36 (t.USB_LP_CAN1_RX0_IRQHandler_addr % 2 ^ 32)).set_VTOR (t.RamVectors_addr % 2 ^ 32)

/-- The machine when the condition of line 223 is evaluated. -/
def at_decision (t : Target) (m0 : Machine) : Machine :=
  (((get_and_clear_magic_word t (vectors_installed t m0)).2).set_UploadStarted
    false).set_UploadFinished false

/-- The log of lines 194-210. -/
def boot_log (t : Target) (m0 : Machine) : List (Action × Machine) :=
  [(Action.store_RamVectors 0 SRAM_END, m0.set_RamVectors 0 SRAM_END),
   (Action.store_RamVectors 1 (t.Reset_Handler_addr % 2 ^ 32),
     (m0.set_RamVectors 0 SRAM_END).set_RamVectors 1 (t.Reset_Handler_addr % 2 ^ 32)),
   (Action.store_RamVectors 36 (t.USB_LP_CAN1_RX0_IRQHandler_addr % 2 ^ 32),
     ((m0.set_RamVectors 0 SRAM_END).set_RamVectors 1 (t.Reset_Handler_addr % 2 ^ 32)).set_RamVectors
       36 (t.USB_LP_CAN1_RX0_IRQHandler_addr % 2 ^ 32)),
   (Action.store_VTOR (t.RamVectors_addr % 2 ^ 32), vectors_installed t m0),
   (Action.pins_init, (get_and_clear_magic_word t (vectors_installed t m0)).2),
   (Action.delay 72, (get_and_clear_magic_word t (vectors_installed t m0)).2)] ++
  if t.HAS_LED2_PIN then
    [(Action.led2_off, (get_and_clear_magic_word t (vectors_installed t m0)).2)]
  else []

/-- The log of the forced-update branch, lines 226-239. -/
def forced_log (t : Target) (m0 : Machine) : List (Action × Machine) :=
  if m0.BKP_DR10 % 2 ^ 16 = 0x424C then
    (if t.HAS_LED2_PIN then [(Action.led2_on, at_decision t m0)] else []) ++
      [(Action.USB_Shutdown, at_decision t m0), (Action.delay 4000000, at_decision t m0)]
  else []

/-- The log of the run-application path, lines 255-267. -/
def handoff_log (t : Target) (e : Env) (m0 : Machine) : List (Action × Machine) :=
  let d := at_decision t m0
  let d1 := d.set_APB2ENR (CLEAR_BIT d.RCC_APB2ENR t.RCC_APB2ENR_IOPAEN)
  let d2 := d1.set_VTOR USER_PROGRAM
  let d3 := d2.set_MSP (read32 e.flash USER_PROGRAM)
  (if t.HAS_LED2_PIN then [(Action.led2_on, d)] else []) ++
    [(Action.LED1_CLOCK_DIS, d1), (Action.store_VTOR USER_PROGRAM, d2),
     (Action.set_MSP (read32 e.flash USER_PROGRAM), d3),
     (Action.UserProgram (read32 e.flash (USER_PROGRAM + 0x04)), d3)]

/-- The condition of the `if` at lines 223-225, on the initial backup register, the word
read from `GPIOB->IDR` and the flash. -/
def enters_updater (e : Env) (m0 : Machine) : Prop :=
  m0.BKP_DR10 % 2 ^ 16 = 0x424C ∨ (e.GPIOB_IDR % 2 ^ 32) &&& GPIO_IDR_IDR2 ≠ 0 ∨
    check_user_code e.flash USER_PROGRAM = false

instance (e : Env) (m0 : Machine) : Decidable (enters_updater e m0) := by
  unfold enters_updater
  infer_instance

/-- A target with both indicator pins, as on the usual STM32F103 boards. -/
def sample_target : Target :=
  { HAS_LED1_PIN := true, HAS_LED2_PIN := true, RCC_APB1ENR_BKPEN := 0x08000000,
    RCC_APB1ENR_PWREN := 0x10000000, PWR_CR_DBP := 0x100, RCC_APB2ENR_IOPAEN := 0x4,
    RamVectors_addr := 0x20000000, Reset_Handler_addr := 0x080000C1,
    USB_LP_CAN1_RX0_IRQHandler_addr := 0x08000201 }

/-- A target built without `HAS_LED1_PIN` and `HAS_LED2_PIN`. -/
def bare_target : Target :=
  { sample_target with HAS_LED1_PIN := false, HAS_LED2_PIN := false }

/-- A machine at reset with the given backup register; `RamVectors` is not yet written. -/
def sample_machine (dr10 : Nat) : Machine :=
  { RCC_APB1ENR := 0, RCC_APB2ENR := 0x1D, PWR_CR := 0, BKP_DR10 := dr10,
    RamVectors := List.replicate 37 0, SCB_VTOR := 0, MSP := 0x20005000,
    UploadStarted := true, UploadFinished := true }

/-- Inputs with the given `GPIOB->IDR`, first application word `sp` and entry `0x08001101`;
the upload is seen finished from poll `done` on, and not started before. -/
def sample_env (idr sp done : Nat) : Env :=
  { GPIOB_IDR := idr
    flash := fun a => if a = USER_PROGRAM then sp else 0x08001101
    isr := fun k => { UploadStarted := false, UploadFinished := decide (done ≤ k) } }

/-- Actions that the polling loop itself performs. -/
def Action.isLoopAction (a : Action) : Prop :=
  a = .led_on ∨ a = .led_off ∨ a = .delay 200000 ∨ a = .delay 400

instance (a : Action) : Decidable a.isLoopAction := by
  unfold Action.isLoopAction
  infer_instance

/-! ## Auxiliary facts -/

theorem check_flash_complete_snd (t : Target) (r : Run) :
    (check_flash_complete t r).2 = r.m.UploadFinished := by
  unfold check_flash_complete
  cases h : r.m.UploadFinished <;> simp

theorem check_flash_complete_m (t : Target) (r : Run) :
    (check_flash_complete t r).1.m = r.m := by
  unfold check_flash_complete
  cases r.m.UploadFinished <;> cases r.m.UploadStarted <;> cases t.HAS_LED1_PIN <;>
    simp [delay, Run.emit]

theorem check_flash_complete_log (t : Target) (r : Run) :
    (check_flash_complete t r).1.log = r.log ++ heartbeat t r.m := by
  unfold check_flash_complete heartbeat
  cases r.m.UploadFinished <;> cases r.m.UploadStarted <;> cases t.HAS_LED1_PIN <;>
    simp [delay, Run.emit]

theorem withFlags_withFlags (m : Machine) (f g : Flags) :
    (m.withFlags f).withFlags g = m.withFlags g := rfl

theorem withFlags_UploadFinished (m : Machine) (f : Flags) :
    (m.withFlags f).UploadFinished = f.UploadFinished := rfl

theorem withFlags_UploadStarted (m : Machine) (f : Flags) :
    (m.withFlags f).UploadStarted = f.UploadStarted := rfl

theorem poll_log_withFlags (t : Target) (isr : Nat → Flags) (m : Machine) (f : Flags)
    (fuel k : Nat) : poll_log t isr (m.withFlags f) fuel k = poll_log t isr m fuel k := by
  induction fuel generalizing k with
  | zero => rfl
  | succ n ih => simp only [poll_log, withFlags_withFlags, ih]

theorem poll_loop_log (t : Target) (isr : Nat → Flags) (fuel k : Nat) (r : Run) :
    (poll_loop t isr fuel k r).1.log = r.log ++ poll_log t isr r.m fuel k := by
  induction fuel generalizing k r with
  | zero => simp [poll_loop, poll_log]
  | succ n ih =>
    rw [poll_loop, poll_log]
    simp only [check_flash_complete_snd, Run.store, withFlags_UploadFinished]
    cases hf : (isr k).UploadFinished
    · simp [ih, delay, Run.emit, check_flash_complete_log, check_flash_complete_m,
        poll_log_withFlags]
    · simp [check_flash_complete_log, heartbeat, hf, withFlags_UploadFinished]

@[simp]
theorem Run.emit_m (r : Run) (a : Action) : (r.emit a).m = r.m := rfl

@[simp]
theorem Run.emit_log (r : Run) (a : Action) : (r.emit a).log = r.log ++ [(a, r.m)] := rfl

@[simp]
theorem Run.store_m (r : Run) (f : Machine → Machine) : (r.store f).m = f r.m := rfl

@[simp]
theorem Run.store_log (r : Run) (f : Machine → Machine) : (r.store f).log = r.log := rfl

theorem get_and_clear_magic_word_fst (t : Target) (m : Machine) :
    (get_and_clear_magic_word t m).1 = m.BKP_DR10 % 2 ^ 16 := rfl

theorem poll_loop_snd (t : Target) (isr : Nat → Flags) (fuel k : Nat) (r : Run) :
    (poll_loop t isr fuel k r).2 = poll_exits isr fuel k := by
  induction fuel generalizing k r with
  | zero => rfl
  | succ n ih =>
    rw [poll_loop, poll_exits]
    simp only [check_flash_complete_snd, Run.store_m, withFlags_UploadFinished]
    cases hf : (isr k).UploadFinished <;> simp [ih]

theorem enters_updater_iff (e : Env) (m0 : Machine) :
    enters_updater e m0 ↔ (m0.BKP_DR10 % 65536 = 16972 ∨
      ¬ (e.GPIOB_IDR % 4294967296) &&& GPIO_IDR_IDR2 = 0 ∨
      check_user_code e.flash USER_PROGRAM = false) := Iff.rfl

theorem Reset_Handler_updater_log (t : Target) (e : Env) (fuel : Nat) (m0 : Machine)
    (h : enters_updater e m0) :
    (Reset_Handler t e fuel m0).1.log =
      boot_log t m0 ++ forced_log t m0 ++ (Action.USB_Init, at_decision t m0) ::
        poll_log t e.isr (at_decision t m0) fuel 0 ++
        if poll_exits e.isr fuel 0 then
          [(Action.USB_Shutdown, (Reset_Handler t e fuel m0).1.m),
            (Action.NVIC_SystemReset, (Reset_Handler t e fuel m0).1.m)]
        else [] := by
  have hc := (enters_updater_iff e m0).1 h
  by_cases hm : m0.BKP_DR10 % 65536 = 16972
  · cases hl : t.HAS_LED2_PIN <;> cases hx : poll_exits e.isr fuel 0 <;>
      simp [Reset_Handler, hm, hl, hx, boot_log, forced_log, poll_loop_log, poll_loop_snd,
        at_decision, vectors_installed, get_and_clear_magic_word_fst, delay,
        Machine.set_RamVectors, Machine.set_VTOR]
  · have hc2 : ¬ (e.GPIOB_IDR % 4294967296) &&& GPIO_IDR_IDR2 = 0 ∨
        check_user_code e.flash USER_PROGRAM = false := by tauto
    cases hl : t.HAS_LED2_PIN <;> cases hx : poll_exits e.isr fuel 0 <;>
      simp [Reset_Handler, hm, hl, hx, hc2, boot_log, forced_log, poll_loop_log, poll_loop_snd,
        at_decision, vectors_installed, get_and_clear_magic_word_fst, delay,
        Machine.set_RamVectors, Machine.set_VTOR]

theorem Reset_Handler_handoff_log (t : Target) (e : Env) (fuel : Nat) (m0 : Machine)
    (h : ¬ enters_updater e m0) :
    (Reset_Handler t e fuel m0).1.log = boot_log t m0 ++ handoff_log t e m0 := by
  have hc : ¬ (m0.BKP_DR10 % 65536 = 16972 ∨ ¬ (e.GPIOB_IDR % 4294967296) &&& GPIO_IDR_IDR2 = 0 ∨
      check_user_code e.flash USER_PROGRAM = false) := fun x => h ((enters_updater_iff e m0).2 x)
  cases hl : t.HAS_LED2_PIN <;>
    simp [Reset_Handler, hl, hc, boot_log, handoff_log, at_decision, vectors_installed,
      get_and_clear_magic_word_fst, delay, Machine.set_RamVectors, Machine.set_VTOR,
      Machine.set_APB2ENR, Machine.set_MSP, Machine.set_UploadFinished, Machine.set_UploadStarted]

theorem Reset_Handler_status (t : Target) (e : Env) (fuel : Nat) (m0 : Machine) :
    (Reset_Handler t e fuel m0).2 =
      if enters_updater e m0 then
        (if poll_exits e.isr fuel 0 then Status.reset else Status.polling)
      else Status.jumped := by
  by_cases h : enters_updater e m0
  · have hc := (enters_updater_iff e m0).1 h
    cases hx : poll_exits e.isr fuel 0 <;>
      simp [Reset_Handler, h, hx, hc, poll_loop_snd, get_and_clear_magic_word_fst,
        Machine.set_RamVectors, Machine.set_VTOR]
  · have hc : ¬ (m0.BKP_DR10 % 65536 = 16972 ∨
        ¬ (e.GPIOB_IDR % 4294967296) &&& GPIO_IDR_IDR2 = 0 ∨
        check_user_code e.flash USER_PROGRAM = false) := fun x => h ((enters_updater_iff e m0).2 x)
    simp [Reset_Handler, h, hc, get_and_clear_magic_word_fst,
      Machine.set_RamVectors, Machine.set_VTOR]

theorem heartbeat_isLoopAction (t : Target) (m : Machine) :
    ∀ x ∈ heartbeat t m, x.1.isLoopAction := by
  unfold heartbeat
  cases m.UploadFinished <;> cases m.UploadStarted <;> cases t.HAS_LED1_PIN <;>
    simp [Action.isLoopAction]

theorem heartbeat_count (t : Target) (m : Machine) :
    ((heartbeat t m).map Prod.fst).count (Action.delay 400) = 0 := by
  unfold heartbeat
  cases m.UploadFinished <;> cases m.UploadStarted <;> cases t.HAS_LED1_PIN <;>
    simp

theorem poll_log_isLoopAction (t : Target) (isr : Nat → Flags) (m : Machine) (fuel k : Nat) :
    ∀ x ∈ poll_log t isr m fuel k, x.1.isLoopAction := by
  induction fuel generalizing k with
  | zero => simp [poll_log]
  | succ n ih =>
    intro x hx
    rw [poll_log] at hx
    split at hx
    · simp at hx
    · rcases List.mem_append.1 hx with h | h
      · exact heartbeat_isLoopAction t _ x h
      · rcases List.mem_cons.1 h with h | h
        · subst h
          simp [Action.isLoopAction]
        · exact ih _ x h

theorem poll_exits_false_iff (isr : Nat → Flags) (fuel k : Nat) :
    poll_exits isr fuel k = false ↔ ∀ j, j < fuel → (isr (k + j)).UploadFinished = false := by
  induction fuel generalizing k with
  | zero => simp [poll_exits]
  | succ n ih =>
    rw [poll_exits, Bool.or_eq_false_iff, ih]
    constructor
    · rintro ⟨h0, hs⟩ j hj
      cases j with
      | zero => simpa using h0
      | succ i =>
        have := hs i (by omega)
        rwa [show k + 1 + i = k + (i + 1) by omega] at this
    · intro h
      refine ⟨by simpa using h 0 (by omega), fun j hj => ?_⟩
      have := h (j + 1) (by omega)
      rwa [show k + (j + 1) = k + 1 + j by omega] at this

theorem poll_exits_of_finished (isr : Nat → Flags) (fuel k j : Nat) (hj : j < fuel)
    (h : (isr (k + j)).UploadFinished = true) : poll_exits isr fuel k = true := by
  cases hx : poll_exits isr fuel k
  · have := (poll_exits_false_iff isr fuel k).1 hx j hj
    simp [h] at this
  · rfl

theorem poll_log_count (t : Target) (isr : Nat → Flags) (m : Machine) (fuel k : Nat)
    (h : ∀ j, j < fuel → (isr (k + j)).UploadFinished = false) :
    ((poll_log t isr m fuel k).map Prod.fst).count (Action.delay 400) = fuel := by
  induction fuel generalizing k with
  | zero => simp [poll_log]
  | succ n ih =>
    have h0 : (isr k).UploadFinished = false := by simpa using h 0 (by omega)
    have hs : ∀ j, j < n → (isr (k + 1 + j)).UploadFinished = false := by
      intro j hj
      have := h (j + 1) (by omega)
      rwa [show k + (j + 1) = k + 1 + j by omega] at this
    rw [poll_log]
    simp [h0, heartbeat_count, ih (k + 1) hs]

theorem poll_log_stable (t : Target) (isr : Nat → Flags) (m : Machine) (n fuel k : Nat)
    (h : ∀ j, j < n → (isr (k + j)).UploadFinished = false)
    (hn : (isr (k + n)).UploadFinished = true) (hf : n < fuel) :
    poll_log t isr m fuel k = poll_log t isr m n k := by
  induction n generalizing k fuel with
  | zero =>
    obtain ⟨f, rfl⟩ : ∃ f, fuel = f + 1 := ⟨fuel - 1, by omega⟩
    have h0 : (isr k).UploadFinished = true := by simpa using hn
    simp [poll_log, h0]
  | succ n ih =>
    obtain ⟨f, rfl⟩ : ∃ f, fuel = f + 1 := ⟨fuel - 1, by omega⟩
    have h0 : (isr k).UploadFinished = false := by simpa using h 0 (by omega)
    have hs : ∀ j, j < n → (isr (k + 1 + j)).UploadFinished = false := by
      intro j hj
      have := h (j + 1) (by omega)
      rwa [show k + (j + 1) = k + 1 + j by omega] at this
    have hn2 : (isr (k + 1 + n)).UploadFinished = true := by
      rwa [show k + (n + 1) = k + 1 + n by omega] at hn
    rw [poll_log, poll_log]
    simp [h0, ih f (k + 1) hs hn2 (by omega)]

theorem poll_loop_m (t : Target) (isr : Nat → Flags) (fuel k : Nat) (r : Run) :
    (poll_loop t isr fuel k r).1.m = r.m ∨
      ∃ f, (poll_loop t isr fuel k r).1.m = r.m.withFlags f := by
  induction fuel generalizing k r with
  | zero => exact Or.inl rfl
  | succ n ih =>
    right
    rw [poll_loop]
    simp only [check_flash_complete_snd, Run.store_m, withFlags_UploadFinished]
    cases hf : (isr k).UploadFinished
    · rcases ih (k + 1) (delay 400 (check_flash_complete t (r.store fun m => m.withFlags (isr k))).1)
        with h | ⟨f, h⟩
      · refine ⟨isr k, ?_⟩
        simp only [if_true, beq_self_eq_true]
        rw [h]
        simp [delay, check_flash_complete_m]
      · refine ⟨f, ?_⟩
        simp only [if_true, beq_self_eq_true]
        rw [h]
        simp [delay, check_flash_complete_m, withFlags_withFlags]
    · exact ⟨isr k, by simp [check_flash_complete_m]⟩

theorem Reset_Handler_handoff_m (t : Target) (e : Env) (fuel : Nat) (m0 : Machine)
    (h : ¬ enters_updater e m0) :
    (Reset_Handler t e fuel m0).1.m =
      (((at_decision t m0).set_APB2ENR
        (CLEAR_BIT (at_decision t m0).RCC_APB2ENR t.RCC_APB2ENR_IOPAEN)).set_VTOR
        USER_PROGRAM).set_MSP (read32 e.flash USER_PROGRAM) := by
  have hc : ¬ (m0.BKP_DR10 % 65536 = 16972 ∨ ¬ (e.GPIOB_IDR % 4294967296) &&& GPIO_IDR_IDR2 = 0 ∨
      check_user_code e.flash USER_PROGRAM = false) := fun x => h ((enters_updater_iff e m0).2 x)
  cases hl : t.HAS_LED2_PIN <;>
    simp [Reset_Handler, hl, hc, at_decision, vectors_installed,
      get_and_clear_magic_word_fst, delay, Machine.set_RamVectors, Machine.set_VTOR,
      Machine.set_APB2ENR, Machine.set_MSP, Machine.set_UploadFinished, Machine.set_UploadStarted]

theorem Reset_Handler_updater_m (t : Target) (e : Env) (fuel : Nat) (m0 : Machine)
    (h : enters_updater e m0) :
    (Reset_Handler t e fuel m0).1.m = at_decision t m0 ∨
      ∃ f, (Reset_Handler t e fuel m0).1.m = (at_decision t m0).withFlags f := by
  have hc := (enters_updater_iff e m0).1 h
  have key := poll_loop_m t e.isr fuel 0
    ⟨at_decision t m0, boot_log t m0 ++ forced_log t m0 ++ [(Action.USB_Init, at_decision t m0)]⟩
  by_cases hm : m0.BKP_DR10 % 65536 = 16972
  · cases hl : t.HAS_LED2_PIN <;> cases hx : poll_exits e.isr fuel 0 <;>
      simpa [Reset_Handler, hm, hl, hx, boot_log, forced_log, poll_loop_snd,
        at_decision, vectors_installed, get_and_clear_magic_word_fst, delay,
        Machine.set_RamVectors, Machine.set_VTOR, Run.emit, Run.store] using key
  · have hc2 : ¬ (e.GPIOB_IDR % 4294967296) &&& GPIO_IDR_IDR2 = 0 ∨
        check_user_code e.flash USER_PROGRAM = false := by tauto
    cases hl : t.HAS_LED2_PIN <;> cases hx : poll_exits e.isr fuel 0 <;>
      simpa [Reset_Handler, hm, hl, hx, hc2, boot_log, forced_log, poll_loop_snd,
        at_decision, vectors_installed, get_and_clear_magic_word_fst, delay,
        Machine.set_RamVectors, Machine.set_VTOR, Run.emit, Run.store] using key

/-! ## The persistent flag (C2) -/

theorem get_and_clear_magic_word_BKP (t : Target) (m : Machine) (h : m.BKP_DR10 < 2 ^ 16) :
    (get_and_clear_magic_word t m).2.BKP_DR10 = 0 := by
  unfold get_and_clear_magic_word
  by_cases hv : m.BKP_DR10 % 65536 = 0
  · have : m.BKP_DR10 = 0 := by omega
    simp [this]
  · simp [hv]

theorem get_and_clear_magic_word_VTOR (t : Target) (m : Machine) :
    (get_and_clear_magic_word t m).2.SCB_VTOR = m.SCB_VTOR := by
  unfold get_and_clear_magic_word
  by_cases hv : m.BKP_DR10 % 65536 = 0 <;> simp [hv]

theorem get_and_clear_magic_word_MSP (t : Target) (m : Machine) :
    (get_and_clear_magic_word t m).2.MSP = m.MSP := by
  unfold get_and_clear_magic_word
  by_cases hv : m.BKP_DR10 % 65536 = 0 <;> simp [hv]

theorem get_and_clear_magic_word_RamVectors (t : Target) (m : Machine) :
    (get_and_clear_magic_word t m).2.RamVectors = m.RamVectors := by
  unfold get_and_clear_magic_word
  by_cases hv : m.BKP_DR10 % 65536 = 0 <;> simp [hv]

/-- C2: for every 16-bit initial value of `BKP->DR10` (zero, the sentinel `0x424C` or any
other value), `get_and_clear_magic_word` returns that value and leaves `BKP->DR10` equal
to 0, so that a second evaluation from the resulting state reads 0; the register is also 0
in the machine that any run of `Reset_Handler` leaves behind. -/
theorem get_and_clear_magic_word_reads_and_clears (t : Target) (m : Machine)
    (h : m.BKP_DR10 < 2 ^ 16) :
    (get_and_clear_magic_word t m).1 = m.BKP_DR10 ∧
    (get_and_clear_magic_word t m).2.BKP_DR10 = 0 ∧
    (get_and_clear_magic_word t (get_and_clear_magic_word t m).2).1 = 0 ∧
    ∀ (e : Env) (fuel : Nat), (Reset_Handler t e fuel m).1.m.BKP_DR10 = 0 := by
  have h2 := get_and_clear_magic_word_BKP t m h
  refine ⟨?_, h2, ?_, ?_⟩
  · rw [get_and_clear_magic_word_fst, Nat.mod_eq_of_lt h]
  · rw [get_and_clear_magic_word_fst, h2]
    rfl
  · intro e fuel
    have hd : (at_decision t m).BKP_DR10 = 0 :=
      get_and_clear_magic_word_BKP t (vectors_installed t m) h
    by_cases hu : enters_updater e m
    · rcases Reset_Handler_updater_m t e fuel m hu with hm | ⟨f, hm⟩
      · rw [hm, hd]
      · rw [hm]
        exact hd
    · rw [Reset_Handler_handoff_m t e fuel m hu]
      exact hd

/-- Witness for C2: the sentinel is returned and cleared. -/
theorem get_and_clear_magic_word_reads_and_clears_witness :
    (get_and_clear_magic_word sample_target (sample_machine 0x424C)).1 = 0x424C ∧
    (get_and_clear_magic_word sample_target (sample_machine 0x424C)).2.BKP_DR10 = 0 :=
  let r := get_and_clear_magic_word_reads_and_clears sample_target (sample_machine 0x424C)
    (by decide)
  ⟨r.1, r.2.1⟩

/-! ## The application validity check (C5, C6) -/

theorem read32_lt (flash : Nat → Nat) (addr : Nat) : read32 flash addr < 2 ^ 32 :=
  Nat.mod_lt _ (by decide)

theorem check_user_code_eq_true (flash : Nat → Nat) (usrAddr : Nat) :
    check_user_code flash usrAddr = true ↔ read32 flash usrAddr &&& 0x2FFE0000 = SRAM_BASE := by
  unfold check_user_code
  simp

/-- C5, as stated, fails: the word `0x2001FFFF` is accepted by `check_user_code` although it
lies above `SRAM_END = 0x20005000`. -/
theorem check_user_code_accepts_above_SRAM_END :
    check_user_code (fun _ => 0x2001FFFF) USER_PROGRAM = true ∧
    read32 (fun _ => 0x2001FFFF) USER_PROGRAM = 0x2001FFFF ∧
    SRAM_END = 0x20005000 ∧
    ¬ (SRAM_BASE ≤ read32 (fun _ => 0x2001FFFF) USER_PROGRAM ∧
       read32 (fun _ => 0x2001FFFF) USER_PROGRAM ≤ SRAM_END) := by
  decide

/-- C5, amended: if `check_user_code(usrAddr)` returns true and bits 28, 30 and 31 of the
word `sp` stored at `usrAddr` are clear, then `sp` lies in the 128 KiB window selected by the
mask `0x2FFE0000`, i.e. `SRAM_BASE <= sp <= 0x2001FFFF`. -/
theorem check_user_code_accepts_region (flash : Nat → Nat) (usrAddr : Nat)
    (h : check_user_code flash usrAddr = true)
    (hhi : read32 flash usrAddr &&& 0xD0000000 = 0) :
    SRAM_BASE ≤ read32 flash usrAddr ∧ read32 flash usrAddr ≤ 0x2001FFFF := by
  have h1 := (check_user_code_eq_true flash usrAddr).1 h
  have hlt := read32_lt flash usrAddr
  generalize read32 flash usrAddr = sp at h1 hhi hlt
  have hmask : (0x2FFE0000 ||| 0xD0000000 ||| 0x1FFFF : Nat) = 2 ^ 32 - 1 := by decide
  have e1 : sp &&& (0x2FFE0000 ||| 0xD0000000 ||| 0x1FFFF) = sp := by
    rw [hmask, Nat.and_pow_two_sub_one_eq_mod, Nat.mod_eq_of_lt hlt]
  have e2 : sp &&& 0x1FFFF = sp % 2 ^ 17 := Nat.and_pow_two_sub_one_eq_mod sp 17
  have hr : sp % 2 ^ 17 < 2 ^ 17 := Nat.mod_lt _ (by decide)
  have e3 := Nat.mul_add_lt_is_or hr 0x1000
  rw [Nat.and_or_distrib_left, Nat.and_or_distrib_left, h1, hhi, e2, Nat.or_zero] at e1
  have hb : SRAM_BASE = 2 ^ 17 * 0x1000 := by decide
  rw [hb, ← e3] at e1
  rw [hb]
  omega

/-- Witness for C5 (amended): the initial stack pointer `SRAM_END` itself is accepted. -/
theorem check_user_code_accepts_region_witness :
    SRAM_BASE ≤ read32 (fun _ => 0x20005000) USER_PROGRAM ∧
    read32 (fun _ => 0x20005000) USER_PROGRAM ≤ 0x2001FFFF :=
  check_user_code_accepts_region (fun _ => 0x20005000) USER_PROGRAM (by decide) (by decide)

/-! ## The boot decision (C1, C6) -/

theorem IDR2_low_iff (idr : Nat) :
    (idr % 2 ^ 32) &&& GPIO_IDR_IDR2 = 0 ↔ idr.testBit 2 = false := by
  have h := Nat.and_two_pow (idr % 2 ^ 32) 2
  have h4 : GPIO_IDR_IDR2 = 2 ^ 2 := by decide
  rw [h4, h, Nat.testBit_mod_two_pow]
  cases idr.testBit 2 <;> simp

theorem enters_updater_iff_pin (e : Env) (m0 : Machine) (hm : m0.BKP_DR10 < 2 ^ 16) :
    enters_updater e m0 ↔ (m0.BKP_DR10 = 0x424C ∨ e.GPIOB_IDR.testBit 2 = true ∨
      check_user_code e.flash USER_PROGRAM = false) := by
  unfold enters_updater
  rw [Nat.mod_eq_of_lt hm, Ne, IDR2_low_iff]
  simp

theorem actions_updater (t : Target) (e : Env) (fuel : Nat) (m0 : Machine)
    (h : enters_updater e m0) :
    (Reset_Handler t e fuel m0).1.actions =
      (boot_log t m0).map Prod.fst ++ (forced_log t m0).map Prod.fst ++ Action.USB_Init ::
        (poll_log t e.isr (at_decision t m0) fuel 0).map Prod.fst ++
        if poll_exits e.isr fuel 0 then [Action.USB_Shutdown, Action.NVIC_SystemReset] else [] := by
  unfold Run.actions
  rw [Reset_Handler_updater_log t e fuel m0 h]
  cases poll_exits e.isr fuel 0 <;> simp

theorem actions_handoff (t : Target) (e : Env) (fuel : Nat) (m0 : Machine)
    (h : ¬ enters_updater e m0) :
    (Reset_Handler t e fuel m0).1.actions =
      (boot_log t m0).map Prod.fst ++ (if t.HAS_LED2_PIN then [Action.led2_on] else []) ++
        [Action.LED1_CLOCK_DIS, Action.store_VTOR USER_PROGRAM,
          Action.set_MSP (read32 e.flash USER_PROGRAM),
          Action.UserProgram (read32 e.flash (USER_PROGRAM + 0x04))] := by
  unfold Run.actions
  rw [Reset_Handler_handoff_log t e fuel m0 h]
  cases hl : t.HAS_LED2_PIN <;> simp [handoff_log, hl]

theorem boot_actions (t : Target) (m0 : Machine) :
    (boot_log t m0).map Prod.fst =
      [Action.store_RamVectors 0 SRAM_END,
        Action.store_RamVectors 1 (t.Reset_Handler_addr % 2 ^ 32),
        Action.store_RamVectors 36 (t.USB_LP_CAN1_RX0_IRQHandler_addr % 2 ^ 32),
        Action.store_VTOR (t.RamVectors_addr % 2 ^ 32), Action.pins_init, Action.delay 72] ++
      if t.HAS_LED2_PIN then [Action.led2_off] else [] := by
  cases hl : t.HAS_LED2_PIN <;> simp [boot_log, hl]

theorem forced_actions (t : Target) (m0 : Machine) :
    (forced_log t m0).map Prod.fst =
      if m0.BKP_DR10 % 2 ^ 16 = 0x424C then
        (if t.HAS_LED2_PIN then [Action.led2_on] else []) ++
          [Action.USB_Shutdown, Action.delay 4000000]
      else [] := by
  unfold forced_log
  by_cases hm : m0.BKP_DR10 % 65536 = 16972 <;> cases hl : t.HAS_LED2_PIN <;> simp [hm, hl]

theorem poll_actions_isLoopAction (t : Target) (isr : Nat → Flags) (m : Machine)
    (fuel k : Nat) : ∀ a ∈ (poll_log t isr m fuel k).map Prod.fst, a.isLoopAction := by
  intro a ha
  obtain ⟨x, hx, rfl⟩ := List.mem_map.1 ha
  exact poll_log_isLoopAction t isr m fuel k x hx

theorem mem_actions_updater (t : Target) (e : Env) (fuel : Nat) (m0 : Machine)
    (h : enters_updater e m0) (a : Action) :
    a ∈ (Reset_Handler t e fuel m0).1.actions ↔
      a ∈ (boot_log t m0).map Prod.fst ∨ a ∈ (forced_log t m0).map Prod.fst ∨
      a = Action.USB_Init ∨ a ∈ (poll_log t e.isr (at_decision t m0) fuel 0).map Prod.fst ∨
      (poll_exits e.isr fuel 0 = true ∧ (a = Action.USB_Shutdown ∨ a = Action.NVIC_SystemReset)) := by
  rw [actions_updater t e fuel m0 h]
  cases poll_exits e.isr fuel 0 <;> simp [or_assoc]

theorem mem_boot_actions (t : Target) (m0 : Machine) (a : Action) :
    a ∈ (boot_log t m0).map Prod.fst →
      a = Action.store_RamVectors 0 SRAM_END ∨
      a = Action.store_RamVectors 1 (t.Reset_Handler_addr % 2 ^ 32) ∨
      a = Action.store_RamVectors 36 (t.USB_LP_CAN1_RX0_IRQHandler_addr % 2 ^ 32) ∨
      a = Action.store_VTOR (t.RamVectors_addr % 2 ^ 32) ∨ a = Action.pins_init ∨
      a = Action.delay 72 ∨ a = Action.led2_off := by
  rw [boot_actions]
  intro h
  cases hl : t.HAS_LED2_PIN <;> simp [hl] at h <;> tauto

theorem mem_forced_actions (t : Target) (m0 : Machine) (a : Action) :
    a ∈ (forced_log t m0).map Prod.fst →
      m0.BKP_DR10 % 2 ^ 16 = 0x424C ∧
      (a = Action.led2_on ∨ a = Action.USB_Shutdown ∨ a = Action.delay 4000000) := by
  rw [forced_actions]
  by_cases hm : m0.BKP_DR10 % 2 ^ 16 = 0x424C
  · rw [if_pos hm]
    cases t.HAS_LED2_PIN <;> simp [hm] <;> tauto
  · rw [if_neg hm]
    simp

/-- On the updater path nothing of the handoff is performed. -/
theorem no_handoff_on_updater (t : Target) (e : Env) (fuel : Nat) (m0 : Machine)
    (h : enters_updater e m0) :
    (∀ a, Action.UserProgram a ∉ (Reset_Handler t e fuel m0).1.actions) ∧
    (∀ v, Action.set_MSP v ∉ (Reset_Handler t e fuel m0).1.actions) ∧
    (∀ v, Action.store_VTOR v ∈ (Reset_Handler t e fuel m0).1.actions →
      v = t.RamVectors_addr % 2 ^ 32) ∧
    Action.LED1_CLOCK_DIS ∉ (Reset_Handler t e fuel m0).1.actions := by
  have key : ∀ a, a ∈ (Reset_Handler t e fuel m0).1.actions →
      (∀ x, a ≠ Action.UserProgram x) ∧ (∀ v, a ≠ Action.set_MSP v) ∧
      (∀ v, a = Action.store_VTOR v → v = t.RamVectors_addr % 2 ^ 32) ∧
      a ≠ Action.LED1_CLOCK_DIS := by
    intro a ha
    rcases (mem_actions_updater t e fuel m0 h a).1 ha with hb | hf | hu | hp | ⟨_, hx⟩
    · rcases mem_boot_actions t m0 a hb with r | r | r | r | r | r | r <;> subst r <;> simp
    · rcases (mem_forced_actions t m0 a hf).2 with r | r | r <;> subst r <;> simp
    · subst hu
      simp
    · rcases poll_actions_isLoopAction t e.isr _ fuel 0 a hp with r | r | r | r <;> subst r <;>
        simp
    · rcases hx with r | r <;> subst r <;> simp
  refine ⟨fun a ha => (key _ ha).1 a rfl, fun v hv => (key _ hv).2.1 v rfl,
    fun v hv => (key _ hv).2.2.1 v rfl, fun hl => (key _ hl).2.2.2 rfl⟩

/-- On the run-application path the transport and the reset are never touched. -/
theorem no_updater_on_handoff (t : Target) (e : Env) (fuel : Nat) (m0 : Machine)
    (h : ¬ enters_updater e m0) :
    Action.USB_Init ∉ (Reset_Handler t e fuel m0).1.actions ∧
    Action.USB_Shutdown ∉ (Reset_Handler t e fuel m0).1.actions ∧
    Action.NVIC_SystemReset ∉ (Reset_Handler t e fuel m0).1.actions := by
  rw [actions_handoff t e fuel m0 h, boot_actions]
  cases t.HAS_LED2_PIN <;> simp

theorem updater_path_of_enters (t : Target) (e : Env) (fuel : Nat) (m0 : Machine)
    (h : enters_updater e m0) :
    Action.USB_Init ∈ (Reset_Handler t e fuel m0).1.actions ∧
    ((Reset_Handler t e fuel m0).2 = Status.polling ∨
      (Reset_Handler t e fuel m0).2 = Status.reset) := by
  refine ⟨(mem_actions_updater t e fuel m0 h _).2 (Or.inr (Or.inr (Or.inl rfl))), ?_⟩
  rw [Reset_Handler_status, if_pos h]
  cases poll_exits e.isr fuel 0 <;> simp

theorem handoff_path_of_not_enters (t : Target) (e : Env) (fuel : Nat) (m0 : Machine)
    (h : ¬ enters_updater e m0) :
    (Reset_Handler t e fuel m0).2 = Status.jumped ∧
    Action.UserProgram (read32 e.flash (USER_PROGRAM + 0x04)) ∈
      (Reset_Handler t e fuel m0).1.actions ∧
    Action.USB_Init ∉ (Reset_Handler t e fuel m0).1.actions := by
  refine ⟨by rw [Reset_Handler_status, if_neg h], ?_, (no_updater_on_handoff t e fuel m0 h).1⟩
  rw [actions_handoff t e fuel m0 h]
  simp

/-- C1: `Reset_Handler` takes the updater path (calls `USB_Init` and enters the polling loop)
if and only if the magic word is `0x424C`, or bit 2 of `GPIOB->IDR` is set, or
`check_user_code(USER_PROGRAM)` is false; otherwise it takes the run-application path and
calls the application entry.  In particular the sentinel forces the updater whatever the pin
and the image are, and an implausible image is never jumped into. -/
theorem boot_decision (t : Target) (e : Env) (fuel : Nat) (m0 : Machine)
    (hm : m0.BKP_DR10 < 2 ^ 16) :
    ((Action.USB_Init ∈ (Reset_Handler t e fuel m0).1.actions ∧
        ((Reset_Handler t e fuel m0).2 = Status.polling ∨
          (Reset_Handler t e fuel m0).2 = Status.reset)) ↔
      (m0.BKP_DR10 = 0x424C ∨ e.GPIOB_IDR.testBit 2 = true ∨
        check_user_code e.flash USER_PROGRAM = false)) ∧
    (((Reset_Handler t e fuel m0).2 = Status.jumped ∧
        Action.UserProgram (read32 e.flash (USER_PROGRAM + 0x04)) ∈
          (Reset_Handler t e fuel m0).1.actions ∧
        Action.USB_Init ∉ (Reset_Handler t e fuel m0).1.actions) ↔
      ¬ (m0.BKP_DR10 = 0x424C ∨ e.GPIOB_IDR.testBit 2 = true ∨
        check_user_code e.flash USER_PROGRAM = false)) ∧
    (m0.BKP_DR10 = 0x424C → Action.USB_Init ∈ (Reset_Handler t e fuel m0).1.actions) ∧
    (check_user_code e.flash USER_PROGRAM = false →
      (Reset_Handler t e fuel m0).2 ≠ Status.jumped ∧
      ∀ a, Action.UserProgram a ∉ (Reset_Handler t e fuel m0).1.actions) := by
  rw [← enters_updater_iff_pin e m0 hm]
  have hmagic : m0.BKP_DR10 = 0x424C → enters_updater e m0 := fun h =>
    (enters_updater_iff_pin e m0 hm).2 (Or.inl h)
  have himage : check_user_code e.flash USER_PROGRAM = false → enters_updater e m0 := fun h =>
    (enters_updater_iff_pin e m0 hm).2 (Or.inr (Or.inr h))
  have hup := updater_path_of_enters t e fuel m0
  have hdown := handoff_path_of_not_enters t e fuel m0
  refine ⟨⟨fun h => ?_, hup⟩, ⟨fun h hu => h.2.2 (hup hu).1, hdown⟩, fun h => (hup (hmagic h)).1,
    fun h => ⟨?_, (no_handoff_on_updater t e fuel m0 (himage h)).1⟩⟩
  · by_contra hn
    exact (hdown hn).2.2 h.1
  · rcases (hup (himage h)).2 with r | r <;> rw [r] <;> decide

/-- Witness for C1: with no magic word, PB2 low and a plausible image the application is
entered. -/
theorem boot_decision_witness :
    (Reset_Handler sample_target (sample_env 0 0x20005000 0) 3 (sample_machine 0)).2 =
      Status.jumped ∧
    Action.USB_Init ∉
      (Reset_Handler sample_target (sample_env 0 0x20005000 0) 3 (sample_machine 0)).1.actions :=
  let r := ((boot_decision sample_target (sample_env 0 0x20005000 0) 3 (sample_machine 0)
    (by decide)).2.1).2 (by decide)
  ⟨r.1, r.2.2⟩

theorem enters_updater_of_USB_Init (t : Target) (e : Env) (fuel : Nat) (m0 : Machine)
    (h : Action.USB_Init ∈ (Reset_Handler t e fuel m0).1.actions) : enters_updater e m0 := by
  by_contra hn
  exact (no_updater_on_handoff t e fuel m0 hn).1 h

/-- C6: `check_user_code` returns false when the word at `usrAddr` is `0xFFFFFFFF` and when
it is `0x00000000`; consequently, with magic word 0 and PB2 low, a boot whose application
image starts with either word takes the updater path and never calls the application. -/
theorem blank_image_stays_in_updater :
    (∀ (flash : Nat → Nat) (usrAddr : Nat),
      (read32 flash usrAddr = 0xFFFFFFFF ∨ read32 flash usrAddr = 0x00000000) →
      check_user_code flash usrAddr = false) ∧
    (∀ (t : Target) (e : Env) (fuel : Nat) (m0 : Machine),
      (read32 e.flash USER_PROGRAM = 0xFFFFFFFF ∨ read32 e.flash USER_PROGRAM = 0x00000000) →
      m0.BKP_DR10 = 0 → e.GPIOB_IDR.testBit 2 = false →
      Action.USB_Init ∈ (Reset_Handler t e fuel m0).1.actions ∧
      ((Reset_Handler t e fuel m0).2 = Status.polling ∨
        (Reset_Handler t e fuel m0).2 = Status.reset) ∧
      ∀ a, Action.UserProgram a ∉ (Reset_Handler t e fuel m0).1.actions) := by
  have hcheck : ∀ (flash : Nat → Nat) (usrAddr : Nat),
      (read32 flash usrAddr = 0xFFFFFFFF ∨ read32 flash usrAddr = 0x00000000) →
      check_user_code flash usrAddr = false := by
    intro flash usrAddr hw
    unfold check_user_code
    rcases hw with hw | hw <;> rw [hw] <;> decide
  refine ⟨hcheck, fun t e fuel m0 hw h0 _ => ?_⟩
  have hm : m0.BKP_DR10 < 2 ^ 16 := by rw [h0]; decide
  have he : enters_updater e m0 :=
    (enters_updater_iff_pin e m0 hm).2 (Or.inr (Or.inr (hcheck e.flash USER_PROGRAM hw)))
  have hu := updater_path_of_enters t e fuel m0 he
  exact ⟨hu.1, hu.2, (no_handoff_on_updater t e fuel m0 he).1⟩

/-- Witness for C6: erased flash behind the bootloader. -/
theorem blank_image_stays_in_updater_witness :
    check_user_code (sample_env 0 0xFFFFFFFF 2).flash USER_PROGRAM = false ∧
    Action.USB_Init ∈
      (Reset_Handler sample_target (sample_env 0 0xFFFFFFFF 2) 1 (sample_machine 0)).1.actions :=
  ⟨blank_image_stays_in_updater.1 (sample_env 0 0xFFFFFFFF 2).flash USER_PROGRAM
      (Or.inl (by decide)),
    (blank_image_stays_in_updater.2 sample_target (sample_env 0 0xFFFFFFFF 2) 1
      (sample_machine 0) (Or.inl (by decide)) (by decide) (by decide)).1⟩

/-! ## The handoff (C3) -/

/-- C3: with magic word different from `0x424C`, PB2 low and `check_user_code(USER_PROGRAM)`
true, `Reset_Handler` sets `SCB->VTOR` to `USER_PROGRAM = 0x08001000`, then the main stack
pointer to the word at `USER_PROGRAM`, then calls the address stored at `USER_PROGRAM + 4`,
in that order and as its last three actions, and never calls `USB_Init`, `USB_Shutdown` or
`NVIC_SystemReset`. -/
theorem handoff_sequence (t : Target) (e : Env) (fuel : Nat) (m0 : Machine)
    (hm : m0.BKP_DR10 < 2 ^ 16) (hmagic : m0.BKP_DR10 ≠ 0x424C)
    (hpin : e.GPIOB_IDR.testBit 2 = false)
    (himage : check_user_code e.flash USER_PROGRAM = true) :
    USER_PROGRAM = 0x08001000 ∧
    (∃ pre, (Reset_Handler t e fuel m0).1.actions =
        pre ++ [Action.store_VTOR USER_PROGRAM, Action.set_MSP (read32 e.flash USER_PROGRAM),
          Action.UserProgram (read32 e.flash (USER_PROGRAM + 0x04))] ∧
      (∀ v, Action.set_MSP v ∉ pre) ∧ (∀ a, Action.UserProgram a ∉ pre)) ∧
    (Reset_Handler t e fuel m0).1.m.SCB_VTOR = USER_PROGRAM ∧
    (Reset_Handler t e fuel m0).1.m.MSP = read32 e.flash USER_PROGRAM ∧
    (Reset_Handler t e fuel m0).2 = Status.jumped ∧
    Action.USB_Init ∉ (Reset_Handler t e fuel m0).1.actions ∧
    Action.USB_Shutdown ∉ (Reset_Handler t e fuel m0).1.actions ∧
    Action.NVIC_SystemReset ∉ (Reset_Handler t e fuel m0).1.actions := by
  have hn : ¬ enters_updater e m0 := by
    rw [enters_updater_iff_pin e m0 hm]
    simp [hmagic, hpin, himage]
  refine ⟨by decide, ⟨(boot_log t m0).map Prod.fst ++
      (if t.HAS_LED2_PIN then [Action.led2_on] else []) ++ [Action.LED1_CLOCK_DIS], ?_, ?_, ?_⟩,
    ?_, ?_, ?_, no_updater_on_handoff t e fuel m0 hn⟩
  · rw [actions_handoff t e fuel m0 hn]
    simp
  · intro v
    rw [boot_actions]
    cases t.HAS_LED2_PIN <;> simp
  · intro a
    rw [boot_actions]
    cases t.HAS_LED2_PIN <;> simp
  · rw [Reset_Handler_handoff_m t e fuel m0 hn]
    rfl
  · rw [Reset_Handler_handoff_m t e fuel m0 hn]
    rfl
  · rw [Reset_Handler_status, if_neg hn]

/-- Witness for C3: a plausible image, no magic word, PB2 low. -/
theorem handoff_sequence_witness :
    (Reset_Handler sample_target (sample_env 0 0x20005000 0) 0 (sample_machine 7)).1.m.SCB_VTOR =
      USER_PROGRAM ∧
    (Reset_Handler sample_target (sample_env 0 0x20005000 0) 0 (sample_machine 7)).1.m.MSP =
      read32 (sample_env 0 0x20005000 0).flash USER_PROGRAM :=
  let r := handoff_sequence sample_target (sample_env 0 0x20005000 0) 0 (sample_machine 7)
    (by decide) (by decide) (by decide) (by decide)
  ⟨r.2.2.1, r.2.2.2.1⟩

/-! ## The update session (C4, C7) -/

theorem poll_exits_true_iff (isr : Nat → Flags) (fuel k : Nat) :
    poll_exits isr fuel k = true ↔ ∃ j, j < fuel ∧ (isr (k + j)).UploadFinished = true := by
  constructor
  · intro h
    by_contra hn
    have hall : ∀ j, j < fuel → (isr (k + j)).UploadFinished = false := by
      intro j hj
      cases hf : (isr (k + j)).UploadFinished
      · rfl
      · exact absurd ⟨j, hj, hf⟩ hn
    rw [(poll_exits_false_iff isr fuel k).2 hall] at h
    exact absurd h (by decide)
  · rintro ⟨j, hj, hf⟩
    exact poll_exits_of_finished isr fuel k j hj hf

/-- C4: on every execution that takes the updater path, the run ends in a reset exactly when
one of the polls sees `UploadFinished`; then the actions are those up to `USB_Init`, the
polling loop, `USB_Shutdown` and `NVIC_SystemReset`, in this order; and no such execution
writes `USER_PROGRAM` to `SCB->VTOR`, loads the stack pointer or calls `UserProgram`. -/
theorem update_completion_reboots (t : Target) (e : Env) (fuel : Nat) (m0 : Machine)
    (h : Action.USB_Init ∈ (Reset_Handler t e fuel m0).1.actions) :
    ((Reset_Handler t e fuel m0).2 = Status.reset ↔
      ∃ j, j < fuel ∧ (e.isr j).UploadFinished = true) ∧
    ((Reset_Handler t e fuel m0).2 = Status.reset →
      ∃ pre loop, (Reset_Handler t e fuel m0).1.actions =
          pre ++ Action.USB_Init :: loop ++ [Action.USB_Shutdown, Action.NVIC_SystemReset] ∧
        Action.USB_Init ∉ pre ∧ ∀ a ∈ loop, a.isLoopAction) ∧
    (Reset_Handler t e fuel m0).2 ≠ Status.jumped ∧
    (∀ a, Action.UserProgram a ∉ (Reset_Handler t e fuel m0).1.actions) ∧
    (∀ v, Action.set_MSP v ∉ (Reset_Handler t e fuel m0).1.actions) ∧
    (∀ v, Action.store_VTOR v ∈ (Reset_Handler t e fuel m0).1.actions →
      v = t.RamVectors_addr % 2 ^ 32) ∧
    (t.RamVectors_addr % 2 ^ 32 ≠ USER_PROGRAM →
      Action.store_VTOR USER_PROGRAM ∉ (Reset_Handler t e fuel m0).1.actions) ∧
    (Reset_Handler t e fuel m0).1.m.SCB_VTOR = t.RamVectors_addr % 2 ^ 32 ∧
    (Reset_Handler t e fuel m0).1.m.MSP = m0.MSP := by
  have hu := enters_updater_of_USB_Init t e fuel m0 h
  have hno := no_handoff_on_updater t e fuel m0 hu
  have hst := Reset_Handler_status t e fuel m0
  rw [if_pos hu] at hst
  have hex := poll_exits_true_iff e.isr fuel 0
  simp only [Nat.zero_add] at hex
  refine ⟨?_, ?_, ?_, hno.1, hno.2.1, hno.2.2.1, fun hne hmem => hne (hno.2.2.1 _ hmem).symm,
    ?_, ?_⟩
  · rw [hst, ← hex]
    cases poll_exits e.isr fuel 0 <;> simp
  · intro hr
    have hx : poll_exits e.isr fuel 0 = true := by
      cases hp : poll_exits e.isr fuel 0
      · rw [hst, hp] at hr
        exact absurd hr (by decide)
      · rfl
    refine ⟨(boot_log t m0).map Prod.fst ++ (forced_log t m0).map Prod.fst,
      (poll_log t e.isr (at_decision t m0) fuel 0).map Prod.fst, ?_, ?_,
      poll_actions_isLoopAction t e.isr _ fuel 0⟩
    · rw [actions_updater t e fuel m0 hu, if_pos hx]
    · intro hmem
      rcases List.mem_append.1 hmem with hb | hf
      · rcases mem_boot_actions t m0 _ hb with r | r | r | r | r | r | r <;> cases r
      · rcases (mem_forced_actions t m0 _ hf).2 with r | r | r <;> cases r
  · rw [hst]
    cases poll_exits e.isr fuel 0 <;> simp
  · rcases Reset_Handler_updater_m t e fuel m0 hu with hm | ⟨f, hm⟩ <;> rw [hm] <;>
      simp [at_decision, Machine.withFlags, Machine.set_UploadFinished,
        Machine.set_UploadStarted, get_and_clear_magic_word_VTOR, vectors_installed,
        Machine.set_VTOR]
  · rcases Reset_Handler_updater_m t e fuel m0 hu with hm | ⟨f, hm⟩ <;> rw [hm] <;>
      simp [at_decision, Machine.withFlags, Machine.set_UploadFinished,
        Machine.set_UploadStarted, get_and_clear_magic_word_MSP, vectors_installed,
        Machine.set_VTOR, Machine.set_RamVectors]

/-- Witness for C4: forced update, upload finished at the third poll. -/
theorem update_completion_reboots_witness :
    (Reset_Handler sample_target (sample_env 0 0x20005000 2) 5 (sample_machine 0x424C)).2 ≠
      Status.jumped ∧
    ∀ a, Action.UserProgram a ∉
      (Reset_Handler sample_target (sample_env 0 0x20005000 2) 5
        (sample_machine 0x424C)).1.actions :=
  let r := update_completion_reboots sample_target (sample_env 0 0x20005000 2) 5
    (sample_machine 0x424C) (by decide)
  ⟨r.2.2.1, r.2.2.2.1⟩

/-- C7: the polling loop has no timeout.  If the first `n` polls all see
`UploadFinished == false` then, whatever the `UploadStarted` values are, after `n` polls the
loop has not been left: it has run `delay(400)` exactly `n` times and done nothing but
indicator and delay actions, and a run of `Reset_Handler` on the updater path with `n` polls
is still polling and has not called `NVIC_SystemReset`.  If moreover poll `n` sees
`UploadFinished == true`, the loop is left at that poll: with any larger number of polls
allowed it exits with the same log, and `Reset_Handler` ends in the reset. -/
theorem polling_has_no_timeout (t : Target) (isr : Nat → Flags) (n : Nat)
    (hn : ∀ j, j < n → (isr j).UploadFinished = false) :
    (∀ r : Run, (poll_loop t isr n 0 r).2 = false ∧
      ∃ l, (poll_loop t isr n 0 r).1.log = r.log ++ l ∧
        (l.map Prod.fst).count (Action.delay 400) = n ∧
        (∀ x ∈ l, x.1.isLoopAction) ∧
        (∀ x ∈ l, x.1 ≠ Action.USB_Shutdown ∧ x.1 ≠ Action.NVIC_SystemReset)) ∧
    (∀ (idr : Nat) (flash : Nat → Nat) (m0 : Machine),
      Action.USB_Init ∈ (Reset_Handler t ⟨idr, flash, isr⟩ n m0).1.actions →
      (Reset_Handler t ⟨idr, flash, isr⟩ n m0).2 = Status.polling ∧
      Action.NVIC_SystemReset ∉ (Reset_Handler t ⟨idr, flash, isr⟩ n m0).1.actions) ∧
    ((isr n).UploadFinished = true → ∀ fuel, n < fuel →
      (∀ r : Run, (poll_loop t isr fuel 0 r).2 = true ∧
        (poll_loop t isr fuel 0 r).1.log = (poll_loop t isr n 0 r).1.log) ∧
      (∀ (idr : Nat) (flash : Nat → Nat) (m0 : Machine),
        Action.USB_Init ∈ (Reset_Handler t ⟨idr, flash, isr⟩ fuel m0).1.actions →
        (Reset_Handler t ⟨idr, flash, isr⟩ fuel m0).2 = Status.reset)) := by
  have hn0 : ∀ j, j < n → (isr (0 + j)).UploadFinished = false := by
    intro j hj
    rw [Nat.zero_add]
    exact hn j hj
  have hx : poll_exits isr n 0 = false := (poll_exits_false_iff isr n 0).2 hn0
  refine ⟨fun r => ⟨by rw [poll_loop_snd, hx], poll_log t isr r.m n 0, poll_loop_log t isr n 0 r,
    poll_log_count t isr r.m n 0 hn0, poll_log_isLoopAction t isr r.m n 0, ?_⟩, ?_, ?_⟩
  · intro x hxl
    rcases poll_log_isLoopAction t isr r.m n 0 x hxl with h | h | h | h <;> rw [h] <;> simp
  · intro idr flash m0 hin
    have hu := enters_updater_of_USB_Init t _ n m0 hin
    refine ⟨by rw [Reset_Handler_status, if_pos hu]; simp [hx], fun hmem => ?_⟩
    rcases (mem_actions_updater t _ n m0 hu _).1 hmem with hb | hf | hi | hp | ⟨hp, _⟩
    · rcases mem_boot_actions t m0 _ hb with r | r | r | r | r | r | r <;> cases r
    · rcases (mem_forced_actions t m0 _ hf).2 with r | r | r <;> cases r
    · cases hi
    · rcases poll_actions_isLoopAction t isr _ n 0 _ hp with r | r | r | r <;> cases r
    · rw [show (⟨idr, flash, isr⟩ : Env).isr = isr from rfl, hx] at hp
      exact absurd hp (by decide)
  · intro hfin fuel hlt
    have hfin0 : (isr (0 + n)).UploadFinished = true := by rwa [Nat.zero_add]
    have hy : poll_exits isr fuel 0 = true := poll_exits_of_finished isr fuel 0 n hlt hfin0
    refine ⟨fun r => ⟨by rw [poll_loop_snd, hy], ?_⟩, fun idr flash m0 hin => ?_⟩
    · rw [poll_loop_log, poll_loop_log, poll_log_stable t isr r.m n fuel 0 hn0 hfin0 hlt]
    · have hu := enters_updater_of_USB_Init t _ fuel m0 hin
      rw [Reset_Handler_status, if_pos hu]
      simp [hy]

/-- Witness for C7: three polls without `UploadFinished`, the fourth sees it. -/
theorem polling_has_no_timeout_witness :
    (poll_loop sample_target (sample_env 4 0 3).isr 3 0 ⟨sample_machine 0, []⟩).2 = false ∧
    (poll_loop sample_target (sample_env 4 0 3).isr 4 0 ⟨sample_machine 0, []⟩).2 = true :=
  let r := polling_has_no_timeout sample_target (sample_env 4 0 3).isr 3 (by decide)
  ⟨(r.1 ⟨sample_machine 0, []⟩).1, ((r.2.2 (by decide) 4 (by decide)).1 ⟨sample_machine 0, []⟩).1⟩

/-! ## Vector table relocation (C8) -/

theorem vectors_installed_table (t : Target) (m0 : Machine) (h37 : m0.RamVectors.length = 37) :
    (vectors_installed t m0).RamVectors.length = 37 ∧
    (vectors_installed t m0).RamVectors[0]? = some SRAM_END ∧
    (vectors_installed t m0).RamVectors[1]? = some (t.Reset_Handler_addr % 2 ^ 32) ∧
    (vectors_installed t m0).RamVectors[36]? =
      some (t.USB_LP_CAN1_RX0_IRQHandler_addr % 2 ^ 32) := by
  simp [vectors_installed, Machine.set_VTOR, Machine.set_RamVectors, h37, List.getElem?_set]

theorem at_decision_table (t : Target) (m0 : Machine) :
    (at_decision t m0).RamVectors = (vectors_installed t m0).RamVectors ∧
    (at_decision t m0).SCB_VTOR = t.RamVectors_addr % 2 ^ 32 ∧
    (at_decision t m0).UploadStarted = false ∧ (at_decision t m0).UploadFinished = false := by
  simp [at_decision, Machine.set_UploadFinished, Machine.set_UploadStarted,
    get_and_clear_magic_word_RamVectors, get_and_clear_magic_word_VTOR, vectors_installed,
    Machine.set_VTOR]

theorem USB_Init_entry (t : Target) (e : Env) (fuel : Nat) (m0 : Machine) :
    ∀ x ∈ (Reset_Handler t e fuel m0).1.log, x.1 = Action.USB_Init → x.2 = at_decision t m0 := by
  intro x hx hi
  have hmem : Action.USB_Init ∈ (Reset_Handler t e fuel m0).1.actions :=
    List.mem_map.2 ⟨x, hx, hi⟩
  have hu := enters_updater_of_USB_Init t e fuel m0 hmem
  rw [Reset_Handler_updater_log t e fuel m0 hu] at hx
  rcases List.mem_append.1 hx with hx | hx
  · rcases List.mem_append.1 hx with hx | hx
    · rcases List.mem_append.1 hx with hb | hf
      · have := mem_boot_actions t m0 x.1 (List.mem_map.2 ⟨x, hb, rfl⟩)
        rw [hi] at this
        rcases this with r | r | r | r | r | r | r <;> cases r
      · have := (mem_forced_actions t m0 x.1 (List.mem_map.2 ⟨x, hf, rfl⟩)).2
        rw [hi] at this
        rcases this with r | r | r <;> cases r
    · rcases List.mem_cons.1 hx with hx | hx
      · rw [hx]
      · have := poll_log_isLoopAction t e.isr _ fuel 0 x hx
        rw [hi] at this
        rcases this with r | r | r | r <;> cases r
  · split at hx
    · simp only [List.mem_cons, List.mem_singleton, List.not_mem_nil, or_false] at hx
      rcases hx with r | r <;> rw [r] at hi <;> cases hi
    · cases hx

theorem log_starts_with_boot_log (t : Target) (e : Env) (fuel : Nat) (m0 : Machine) :
    ∃ tail, (Reset_Handler t e fuel m0).1.log = boot_log t m0 ++ tail := by
  by_cases hu : enters_updater e m0
  · exact ⟨_, by rw [Reset_Handler_updater_log t e fuel m0 hu, List.append_assoc,
      List.append_assoc]⟩
  · exact ⟨_, Reset_Handler_handoff_log t e fuel m0 hu⟩

theorem store_RamVectors_index (t : Target) (e : Env) (fuel : Nat) (m0 : Machine) (i v : Nat)
    (h : Action.store_RamVectors i v ∈ (Reset_Handler t e fuel m0).1.actions) :
    i = 0 ∨ i = 1 ∨ i = 36 := by
  have hboot : Action.store_RamVectors i v ∈ (boot_log t m0).map Prod.fst →
      i = 0 ∨ i = 1 ∨ i = 36 := by
    intro hb
    rcases mem_boot_actions t m0 _ hb with r | r | r | r | r | r | r <;> cases r <;> simp
  by_cases hu : enters_updater e m0
  · rcases (mem_actions_updater t e fuel m0 hu _).1 h with hb | hf | hi | hp | ⟨_, hx⟩
    · exact hboot hb
    · rcases (mem_forced_actions t m0 _ hf).2 with r | r | r <;> cases r
    · cases hi
    · rcases poll_actions_isLoopAction t e.isr _ fuel 0 _ hp with r | r | r | r <;> cases r
    · rcases hx with r | r <;> cases r
  · rw [actions_handoff t e fuel m0 hu] at h
    rcases List.mem_append.1 h with h | h
    · rcases List.mem_append.1 h with h | h
      · exact hboot h
      · split at h
        · rw [List.mem_singleton] at h
          cases h
        · cases h
    · simp at h

/-- C8: in every execution of `Reset_Handler` the first three actions write entries 0, 1 and
36 of `RamVectors`, all inside the 37-entry table, and at the point where `SCB->VTOR` is set
to the address of `RamVectors` the table holds `SRAM_END = 0x20005000` at index 0, the
address of `Reset_Handler` at index 1 and the address of `USB_LP_CAN1_RX0_IRQHandler` at
index 36.  On every updater path the call of `USB_Init` comes after this installation, and
at that call the table and `SCB->VTOR` are unchanged. -/
theorem vector_table_relocation (t : Target) (e : Env) (fuel : Nat) (m0 : Machine)
    (h37 : m0.RamVectors.length = 37) :
    SRAM_END = 0x20005000 ∧
    (∀ i v, Action.store_RamVectors i v ∈ (Reset_Handler t e fuel m0).1.actions →
      i < m0.RamVectors.length) ∧
    ∃ l1 m1 rest,
      (Reset_Handler t e fuel m0).1.log =
        l1 ++ (Action.store_VTOR (t.RamVectors_addr % 2 ^ 32), m1) :: rest ∧
      l1.map Prod.fst =
        [Action.store_RamVectors 0 SRAM_END,
          Action.store_RamVectors 1 (t.Reset_Handler_addr % 2 ^ 32),
          Action.store_RamVectors 36 (t.USB_LP_CAN1_RX0_IRQHandler_addr % 2 ^ 32)] ∧
      m1.SCB_VTOR = t.RamVectors_addr % 2 ^ 32 ∧
      m1.RamVectors.length = 37 ∧
      m1.RamVectors[0]? = some SRAM_END ∧
      m1.RamVectors[1]? = some (t.Reset_Handler_addr % 2 ^ 32) ∧
      m1.RamVectors[36]? = some (t.USB_LP_CAN1_RX0_IRQHandler_addr % 2 ^ 32) ∧
      (∀ x ∈ rest, x.1 = Action.USB_Init →
        x.2.SCB_VTOR = t.RamVectors_addr % 2 ^ 32 ∧ x.2.RamVectors = m1.RamVectors) ∧
      (Action.USB_Init ∈ (Reset_Handler t e fuel m0).1.actions →
        ∃ m2, (Action.USB_Init, m2) ∈ rest) := by
  obtain ⟨tail, htail⟩ := log_starts_with_boot_log t e fuel m0
  have htab := vectors_installed_table t m0 h37
  have hdec := at_decision_table t m0
  have hlog : (Reset_Handler t e fuel m0).1.log =
      (boot_log t m0).take 3 ++
        (Action.store_VTOR (t.RamVectors_addr % 2 ^ 32), vectors_installed t m0) ::
          ((boot_log t m0).drop 4 ++ tail) := by
    rw [htail]
    simp [boot_log]
  refine ⟨by decide, ?_, (boot_log t m0).take 3, vectors_installed t m0,
    (boot_log t m0).drop 4 ++ tail, hlog, by simp [boot_log], rfl, htab.1, htab.2.1, htab.2.2.1,
    htab.2.2.2, ?_, ?_⟩
  · intro i v hmem
    rw [h37]
    rcases store_RamVectors_index t e fuel m0 i v hmem with r | r | r <;> rw [r] <;> decide
  · intro x hx hi
    have hxl : x ∈ (Reset_Handler t e fuel m0).1.log := by
      rw [hlog]
      exact List.mem_append_right _ (List.mem_cons_of_mem _ hx)
    rw [USB_Init_entry t e fuel m0 x hxl hi]
    exact ⟨hdec.2.1, hdec.1⟩
  · intro hmem
    obtain ⟨x, hx, hi⟩ := List.mem_map.1 hmem
    refine ⟨x.2, ?_⟩
    rw [hlog] at hx
    rcases List.mem_append.1 hx with hx | hx
    · have hb : x.1 ∈ (boot_log t m0).map Prod.fst :=
        List.mem_map.2 ⟨x, List.mem_of_mem_take hx, rfl⟩
      rw [hi] at hb
      rcases mem_boot_actions t m0 _ hb with r | r | r | r | r | r | r <;> cases r
    · rcases List.mem_cons.1 hx with hx | hx
      · rw [hx] at hi
        cases hi
      · rw [← hi]
        exact hx

/-- Witness for C8: a forced update on a table that starts zeroed. -/
theorem vector_table_relocation_witness :
    SRAM_END = 0x20005000 ∧
    ∀ i v, Action.store_RamVectors i v ∈
        (Reset_Handler sample_target (sample_env 0 0x20005000 1) 2
          (sample_machine 0x424C)).1.actions →
      i < (sample_machine 0x424C).RamVectors.length :=
  let r := vector_table_relocation sample_target (sample_env 0 0x20005000 1) 2
    (sample_machine 0x424C) (by decide)
  ⟨r.1, r.2.1⟩

/-! ## Heartbeat of the supervisor (C9) -/

/-- C9, as stated, fails: built without `HAS_LED1_PIN`, a poll that sees both flags false
performs `delay(200000)` only, not `led_on, delay(200000), led_off, delay(200000)`. -/
theorem heartbeat_without_LED1 :
    (check_flash_complete bare_target
      ⟨(sample_machine 0).withFlags ⟨false, false⟩, []⟩).2 = false ∧
    (check_flash_complete bare_target
      ⟨(sample_machine 0).withFlags ⟨false, false⟩, []⟩).1.actions = [Action.delay 200000] ∧
    (check_flash_complete bare_target
      ⟨(sample_machine 0).withFlags ⟨false, false⟩, []⟩).1.actions ≠
        [Action.led_on, Action.delay 200000, Action.led_off, Action.delay 200000] := by
  decide

/-- C9, amended: `check_flash_complete` returns true if and only if `UploadFinished` is
true and then performs no action; when `UploadFinished` is false and `UploadStarted` is false
it performs `led_on, delay(200000), led_off, delay(200000)` if `HAS_LED1_PIN` is defined and
`delay(200000)` alone otherwise; when `UploadStarted` is true it performs no action, so that
such a loop iteration consists only of the `delay(400)` of the loop.  It never writes the
machine. -/
theorem check_flash_complete_heartbeat (t : Target) (r : Run) :
    (check_flash_complete t r).2 = r.m.UploadFinished ∧
    (check_flash_complete t r).1.m = r.m ∧
    (check_flash_complete t r).1.log = r.log ++
      (if r.m.UploadFinished = true ∨ r.m.UploadStarted = true then []
       else if t.HAS_LED1_PIN = true then
         [(Action.led_on, r.m), (Action.delay 200000, r.m), (Action.led_off, r.m),
           (Action.delay 200000, r.m)]
       else [(Action.delay 200000, r.m)]) ∧
    ∀ (isr : Nat → Flags) (fuel k : Nat),
      (isr k).UploadFinished = false → (isr k).UploadStarted = true →
      poll_loop t isr (fuel + 1) k r =
        poll_loop t isr fuel (k + 1) ((r.store fun m => m.withFlags (isr k)).emit
          (Action.delay 400)) := by
  refine ⟨check_flash_complete_snd t r, check_flash_complete_m t r, ?_, ?_⟩
  · rw [check_flash_complete_log, heartbeat]
    cases r.m.UploadFinished <;> cases r.m.UploadStarted <;> cases t.HAS_LED1_PIN <;> simp
  · intro isr fuel k hf hs
    rw [poll_loop]
    simp [check_flash_complete, withFlags_UploadFinished, withFlags_UploadStarted, hf, hs, delay]

/-- Witness for C9 (amended): an iteration during an active transfer. -/
theorem check_flash_complete_heartbeat_witness :
    poll_loop sample_target (fun _ => ⟨true, false⟩) (1 + 1) 0 ⟨sample_machine 0, []⟩ =
      poll_loop sample_target (fun _ => ⟨true, false⟩) 1 (0 + 1)
        (((⟨sample_machine 0, []⟩ : Run).store fun m => m.withFlags ⟨true, false⟩).emit
          (Action.delay 400)) :=
  (check_flash_complete_heartbeat sample_target ⟨sample_machine 0, []⟩).2.2.2
    (fun _ => ⟨true, false⟩) 1 0 rfl rfl

/-! ## Forced-update signalling (C10) -/

/-- C10, as stated, fails: built without `HAS_LED2_PIN`, a boot with the magic word
`0x424C` reaches `USB_Init` after `USB_Shutdown, delay(4000000)` without any `led2_on`. -/
theorem forced_update_without_LED2 :
    (Reset_Handler bare_target (sample_env 0 0x20005000 0) 0 (sample_machine 0x424C)).1.actions =
      [Action.store_RamVectors 0 0x20005000, Action.store_RamVectors 1 0x080000C1,
        Action.store_RamVectors 36 0x08000201, Action.store_VTOR 0x20000000,
        Action.pins_init, Action.delay 72, Action.USB_Shutdown, Action.delay 4000000,
        Action.USB_Init] ∧
    Action.led2_on ∉
      (Reset_Handler bare_target (sample_env 0 0x20005000 0) 0
        (sample_machine 0x424C)).1.actions := by
  decide

/-- C10, amended: on every updater-path execution the actions between the boot decision and
`USB_Init` are `USB_Shutdown, delay(4000000)`, preceded by `led2_on` when `HAS_LED2_PIN` is
defined, if the magic word equals `0x424C`, and there are none otherwise; `USB_Init` is
called once, and at that call `UploadStarted` and `UploadFinished` are both false. -/
theorem forced_update_signalling (t : Target) (e : Env) (fuel : Nat) (m0 : Machine)
    (hm : m0.BKP_DR10 < 2 ^ 16)
    (h : Action.USB_Init ∈ (Reset_Handler t e fuel m0).1.actions) :
    (∃ rest, (Reset_Handler t e fuel m0).1.actions =
      [Action.store_RamVectors 0 SRAM_END,
        Action.store_RamVectors 1 (t.Reset_Handler_addr % 2 ^ 32),
        Action.store_RamVectors 36 (t.USB_LP_CAN1_RX0_IRQHandler_addr % 2 ^ 32),
        Action.store_VTOR (t.RamVectors_addr % 2 ^ 32), Action.pins_init, Action.delay 72] ++
      (if t.HAS_LED2_PIN = true then [Action.led2_off] else []) ++
      (if m0.BKP_DR10 = 0x424C then
        (if t.HAS_LED2_PIN = true then [Action.led2_on] else []) ++
          [Action.USB_Shutdown, Action.delay 4000000]
       else []) ++
      Action.USB_Init :: rest ∧ Action.USB_Init ∉ rest) ∧
    ∀ x ∈ (Reset_Handler t e fuel m0).1.log, x.1 = Action.USB_Init →
      x.2.UploadStarted = false ∧ x.2.UploadFinished = false := by
  have hu := enters_updater_of_USB_Init t e fuel m0 h
  have hdec := at_decision_table t m0
  refine ⟨⟨(poll_log t e.isr (at_decision t m0) fuel 0).map Prod.fst ++
      if poll_exits e.isr fuel 0 then [Action.USB_Shutdown, Action.NVIC_SystemReset] else [],
    ?_, ?_⟩, ?_⟩
  · rw [actions_updater t e fuel m0 hu, boot_actions, forced_actions, Nat.mod_eq_of_lt hm]
    simp
  · intro hmem
    rcases List.mem_append.1 hmem with hp | hx
    · rcases poll_actions_isLoopAction t e.isr _ fuel 0 _ hp with r | r | r | r <;> cases r
    · split at hx
      · simp at hx
      · cases hx
  · intro x hx hi
    rw [USB_Init_entry t e fuel m0 x hx hi]
    exact ⟨hdec.2.2.1, hdec.2.2.2⟩

/-- Witness for C10 (amended): updater entered because PB2 is high. -/
theorem forced_update_signalling_witness :
    (at_decision sample_target (sample_machine 0)).UploadStarted = false ∧
    (at_decision sample_target (sample_machine 0)).UploadFinished = false :=
  (forced_update_signalling sample_target (sample_env 4 0x20005000 1) 2 (sample_machine 0)
    (by decide) (by decide)).2 (Action.USB_Init, at_decision sample_target (sample_machine 0))
    (by decide) rfl

end Bootloader
